import Mathlib

/-!
Verification of the translation app core logic (src/src/App.tsx):
the history-cache update rule, the API adapter's prompt building and
response validation, and the session controller's error handling,
shallowly embedded in Lean.
-/

namespace OfficeSuit

/-- A catalog entry, mirroring the TS `Language` interface. -/
structure Language where
  code : String
  name : String
  flag : String
deriving DecidableEq

/-- A history record, mirroring the TS `Translation` interface.
The TS fields `from`/`to` are named `fromCode`/`toCode` here because
`from` is a Lean keyword. -/
structure Translation where
  source : String
  target : String
  fromCode : String
  toCode : String
  timestamp : Nat
deriving DecidableEq

/-- The fixed language catalog (App.tsx lines 117-138). -/
def languages : List Language :=
  [ { code := "auto", name := "Detect Language", flag := "g" },
    { code := "en", name := "English", flag := "us" },
    { code := "es", name := "Spanish", flag := "es" },
    { code := "fr", name := "French", flag := "fr" },
    { code := "de", name := "German", flag := "de" },
    { code := "it", name := "Italian", flag := "it" },
    { code := "pt", name := "Portuguese", flag := "pt" },
    { code := "ru", name := "Russian", flag := "ru" },
    { code := "ja", name := "Japanese", flag := "jp" },
    { code := "ko", name := "Korean", flag := "kr" },
    { code := "zh", name := "Chinese (Simplified)", flag := "cn" },
    { code := "zh-TW", name := "Chinese (Traditional)", flag := "tw" },
    { code := "ar", name := "Arabic", flag := "sa" },
    { code := "hi", name := "Hindi", flag := "in" },
    { code := "th", name := "Thai", flag := "th" },
    { code := "vi", name := "Vietnamese", flag := "vn" },
    { code := "nl", name := "Dutch", flag := "nl" },
    { code := "sv", name := "Swedish", flag := "se" },
    { code := "da", name := "Danish", flag := "dk" },
    { code := "no", name := "Norwegian", flag := "no" } ]

/-- JavaScript `x || d` for a possibly-absent string: `none` (missing) and
the empty string are falsy and fall back to the default. -/
def jsOrElse (x : Option String) (d : String) : String :=
  match x with
  | none => d
  | some s => if s = "" then d else s

/-- JavaScript `s.toLowerCase()`, modelled as a character-wise lowering. -/
def jsToLowerCase (s : String) : String :=
  String.mk (s.data.map Char.toLower)

/-- JavaScript `s.trim()`: strip leading and trailing whitespace. -/
def jsTrim (s : String) : String :=
  String.mk (((s.data.dropWhile Char.isWhitespace).reverse.dropWhile
    Char.isWhitespace).reverse)

/-- The duplicate test of the history updater (App.tsx lines 260-268):
lower-cased source and target, exact from/to codes. -/
def sameIdentity (a b : Translation) : Bool :=
  jsToLowerCase a.source == jsToLowerCase b.source &&
  jsToLowerCase a.target == jsToLowerCase b.target &&
  a.fromCode == b.fromCode && a.toCode == b.toCode

/-- The key of the final defensive dedup pass (App.tsx line 294):
the raw, case-sensitive fields joined by "-". -/
def identityKey (t : Translation) : String :=
  t.source ++ "-" ++ t.target ++ "-" ++ t.fromCode ++ "-" ++ t.toCode

/-- The Set-based dedup filter of App.tsx lines 293-301: keep an element
when its key was not seen before, accumulating seen keys. -/
def dedupByKey (seen : List String) : List Translation → List Translation
  | [] => []
  | t :: rest =>
    if seen.contains (identityKey t) then dedupByKey seen rest
    else t :: dedupByKey (identityKey t :: seen) rest

/-- Helper for the index filter `.filter((_, index) => index < n)`:
`i` is the index of the first element of the remaining list. -/
def filterIdxLtAux (n : Nat) (i : Nat) : List Translation → List Translation
  | [] => []
  | t :: rest =>
    if i < n then t :: filterIdxLtAux n (i + 1) rest
    else filterIdxLtAux n (i + 1) rest

/-- The index filter `.filter((_, index) => index < n)` of App.tsx line 292. -/
def filterIdxLt (n : Nat) (l : List Translation) : List Translation :=
  filterIdxLtAux n 0 l

/-- The `setRecentTranslations` updater run on a successful translation
(App.tsx lines 258-302): move-to-front on duplicate identity, else prepend
over the first 9 old entries; then keep indices < 10 and apply the
defensive key-based dedup pass. -/
def recordTranslation (prev : List Translation) (newT : Translation) : List Translation :=
  let isDuplicate := prev.any (fun t => sameIdentity t newT)
  let temp :=
    if isDuplicate then
      (newT :: prev.filter (fun t => !(sameIdentity t newT))).take 10
    else
      newT :: prev.take 9
  dedupByKey [] (filterIdxLt 10 temp)

/-- The lower-cased identity tuple used by the spec for record identity. -/
def lid (t : Translation) : String × String × String × String :=
  (jsToLowerCase t.source, jsToLowerCase t.target, t.fromCode, t.toCode)

/-! ## API adapter (`translateWithGemini`, App.tsx lines 47-115) -/

/-- One part of a candidate's content: carries the generated text. -/
structure GeminiPart where
  text : String
deriving DecidableEq

/-- A candidate's content; the code reads `parts[0]`, so an empty list
models a body whose first part is missing. -/
structure GeminiContent where
  parts : List GeminiPart
deriving DecidableEq

/-- One candidate; the code null-checks `content`, so it is optional here. -/
structure GeminiCandidate where
  content : Option GeminiContent
deriving DecidableEq

/-- A success body; the code null-checks `candidates`, so it is optional. -/
structure GeminiResponse where
  candidates : Option (List GeminiCandidate)
deriving DecidableEq

/-- Outcome of the network call: an HTTP-ok body, or a failure with the
status and the optional `errorData.error?.message` payload field. -/
inductive HttpResult where
  | ok (body : GeminiResponse)
  | fail (status : Nat) (errorMessage : Option String)
deriving DecidableEq

/-- The spec's error taxonomy, each carrying the thrown message. -/
inductive TransError where
  | config (msg : String)
  | transport (msg : String)
  | protocol (msg : String)
deriving DecidableEq

/-- The message carried by an error (JS `error.message`). -/
def TransError.message : TransError → String
  | .config m => m
  | .transport m => m
  | .protocol m => m

/-- Resolve a language code to its display name, falling back to the raw
code (App.tsx lines 57-60, `languages.find(...)?.name || code`). -/
def languageName (code : String) : String :=
  jsOrElse ((languages.find? (fun l => l.code == code)).map Language.name) code

/-- The prompt construction of App.tsx lines 62-65. -/
def geminiPrompt (text fromLang toLang : String) : String :=
  if fromLang = "auto" then
    "Translate the following text to " ++ languageName toLang ++
      ". Only return the translation, nothing else:\n\n" ++ text
  else
    "Translate the following text from " ++ languageName fromLang ++ " to " ++
      languageName toLang ++ ". Only return the translation, nothing else:\n\n" ++ text

/-- The validation chain of App.tsx lines 105-110: the first part of the
first candidate's content, or `none` when any link is missing. -/
def firstPartText (data : GeminiResponse) : Option String :=
  match data.candidates with
  | none => none
  | some [] => none
  | some (c :: _) =>
    match c.content with
    | none => none
    | some content =>
      match content.parts with
      | [] => none
      | p :: _ => some p.text

/-- The adapter `translateWithGemini` (App.tsx lines 47-115) with the
network outcome passed in explicitly: empty key fails up front; a non-ok
HTTP result fails with the status and payload message; an ok body is
validated and its first candidate text returned trimmed. -/
def translateWithGemini (text fromLang toLang apiKey : String)
    (resp : HttpResult) : Except TransError String :=
  if apiKey = "" then
    .error (.config "Gemini API key is required")
  else
    -- the prompt is built before the call; record it so the definition
    -- depends on the same inputs as the source
    let _prompt := geminiPrompt text fromLang toLang
    match resp with
    | .fail status errorMessage =>
      .error (.transport ("Gemini API error: " ++ toString status ++ " - " ++
        jsOrElse errorMessage "Unknown error"))
    | .ok body =>
      match firstPartText body with
      | none => .error (.protocol "Invalid response from Gemini API")
      | some s => .ok (jsTrim s)

/-! ## Session controller (`Translate` component state, App.tsx lines 162-314) -/

/-- The controller state relevant to the claims. -/
structure SessionState where
  sourceText : String
  translatedText : String
  sourceLang : String
  targetLang : String
  isTranslating : Bool
  recentTranslations : List Translation
  apiKey : String
  showApiKeyInput : Bool
  error : String
deriving DecidableEq

/-- `handleTranslate` (App.tsx lines 228-314), with `Date.now()` and the
network outcome passed in. The returned flag is whether a network call was
issued. Guard order follows the source: empty trimmed input is a no-op;
empty key sets the error and reopens the key prompt without calling; else
the adapter runs and either the output and history are updated or the
error is surfaced and the output cleared. -/
def handleTranslate (s : SessionState) (now : Nat) (resp : HttpResult) :
    SessionState × Bool :=
  if jsTrim s.sourceText = "" then (s, false)
  else if s.apiKey = "" then
    ({ s with error := "Please enter your Gemini API key first",
              showApiKeyInput := true }, false)
  else
    match translateWithGemini s.sourceText s.sourceLang s.targetLang s.apiKey resp with
    | .ok result =>
      let newTranslation : Translation :=
        { source := jsTrim s.sourceText
          target := result
          fromCode := if s.sourceLang = "auto" then "en" else s.sourceLang
          toCode := s.targetLang
          timestamp := now }
      ({ s with translatedText := result
                error := ""
                recentTranslations := recordTranslation s.recentTranslations newTranslation
                isTranslating := false }, true)
    | .error e =>
      ({ s with error := e.message
                translatedText := ""
                isTranslating := false }, true)

/-- `handleSourceTextChange` (App.tsx lines 385-393): reject inputs longer
than 5000 characters; otherwise adopt the text and clear a present error. -/
def handleSourceTextChange (s : SessionState) (text : String) : SessionState :=
  if text.length ≤ 5000 then
    { s with sourceText := text
             error := if s.error = "" then s.error else "" }
  else s

/-! ## Startup language seeding (App.tsx lines 141-147, 162-171, 183-193) -/

/-- `getUrlParams` (App.tsx lines 141-147): each parameter read with an
`|| default` fallback. -/
def getUrlParams (slParam tlParam : Option String) : String × String :=
  (jsOrElse slParam "en", jsOrElse tlParam "ja")

/-- The initial `sourceLang`/`targetLang` after mount: the `useState`
initializers read the raw parameters with defaults (lines 166-171), then
the startup effect re-reads them and adopts a value only when it is truthy
and a catalog code (lines 188-193). -/
def initialLanguages (slParam tlParam : Option String) : String × String :=
  let sourceLang0 := jsOrElse slParam "en"
  let targetLang0 := jsOrElse tlParam "ja"
  let p := getUrlParams slParam tlParam
  let sourceLang1 :=
    if p.1 ≠ "" ∧ languages.any (fun l => l.code == p.1) = true then p.1
    else sourceLang0
  let targetLang1 :=
    if p.2 ≠ "" ∧ languages.any (fun l => l.code == p.2) = true then p.2
    else targetLang0
  (sourceLang1, targetLang1)

/-! ## Concrete inputs used by the claim theorems -/

/-- Record A of the spec dedup example (hello → bonjour, en, fr). -/
def recA (ts : Nat) : Translation :=
  { source := "hello", target := "bonjour", fromCode := "en", toCode := "fr",
    timestamp := ts }

/-- Record B of the spec dedup example (hi → salut, en, fr). -/
def recB (ts : Nat) : Translation :=
  { source := "hi", target := "salut", fromCode := "en", toCode := "fr",
    timestamp := ts }

/-- A record with the given source text and fixed target and languages. -/
def demoRec (s : String) (ts : Nat) : Translation :=
  { source := s, target := "t", fromCode := "en", toCode := "fr", timestamp := ts }

/-- Eleven records with pairwise distinct identity tuples. -/
def elevenDistinct : List Translation :=
  [demoRec "one" 1, demoRec "two" 2, demoRec "three" 3, demoRec "four" 4,
   demoRec "five" 5, demoRec "six" 6, demoRec "seven" 7, demoRec "eight" 8,
   demoRec "nine" 9, demoRec "ten" 10, demoRec "eleven" 11]

/-- A record whose source differs from `caseLower` only in letter case. -/
def caseUpper : Translation :=
  { source := "Hello", target := "bonjour", fromCode := "en", toCode := "fr",
    timestamp := 0 }

/-- A record whose source differs from `caseUpper` only in letter case. -/
def caseLower : Translation :=
  { source := "hello", target := "bonjour", fromCode := "en", toCode := "fr",
    timestamp := 1 }

/-- A record with an identity unrelated to `caseUpper` and `caseLower`. -/
def caseOther : Translation :=
  { source := "bye", target := "au revoir", fromCode := "en", toCode := "fr",
    timestamp := 2 }

/-- A session with text entered but no API key configured. -/
def keylessState : SessionState :=
  { sourceText := "hi", translatedText := "old", sourceLang := "en",
    targetLang := "ja", isTranslating := false, recentTranslations := [],
    apiKey := "", showApiKeyInput := false, error := "" }

/-- A keyless session holding a previously displayed output. -/
def cexConfigState : SessionState :=
  { sourceText := "hi", translatedText := "old", sourceLang := "en",
    targetLang := "ja", isTranslating := false, recentTranslations := [],
    apiKey := "", showApiKeyInput := false, error := "" }

/-- A session with a visible error message and a configured key. -/
def cexErrState : SessionState :=
  { sourceText := "hi", translatedText := "", sourceLang := "en",
    targetLang := "ja", isTranslating := false, recentTranslations := [],
    apiKey := "k", showApiKeyInput := false, error := "Boom" }

/-- An input exceeding the 5000-character limit. -/
def overlongText : String := String.mk (List.replicate 5001 'a')

/-- A session with a configured key, text, and a visible error message. -/
def errWitnessState : SessionState :=
  { sourceText := "hi", translatedText := "x", sourceLang := "en",
    targetLang := "ja", isTranslating := false, recentTranslations := [],
    apiKey := "k", showApiKeyInput := false, error := "Old error" }

/-- A session translating from the `auto` sentinel with untrimmed input. -/
def autoState : SessionState :=
  { sourceText := " hey ", translatedText := "", sourceLang := "auto",
    targetLang := "ja", isTranslating := false, recentTranslations := [],
    apiKey := "k", showApiKeyInput := false, error := "" }

/-- A well-formed success body with one candidate and one part. -/
def goodBody : GeminiResponse :=
  { candidates := some [{ content := some { parts := [{ text := " Hallo " }] } }] }

/-- A success body lacking the `candidates` field. -/
def emptyBody : GeminiResponse := { candidates := none }

/-! ## Helper lemmas about the history updater -/

theorem dedupByKey_sublist (seen : List String) (l : List Translation) :
    List.Sublist (dedupByKey seen l) l := by
  induction l generalizing seen with
  | nil => simp [dedupByKey]
  | cons t rest ih =>
    simp only [dedupByKey]
    by_cases h : seen.contains (identityKey t) = true
    · rw [if_pos h]
      exact (ih seen).cons t
    · rw [if_neg h]
      exact (ih _).cons₂ t

theorem filterIdxLtAux_eq_take (n : Nat) (l : List Translation) :
    ∀ i, filterIdxLtAux n i l = l.take (n - i) := by
  induction l with
  | nil => intro i; simp [filterIdxLtAux]
  | cons t rest ih =>
    intro i
    simp only [filterIdxLtAux]
    by_cases h : i < n
    · rw [if_pos h, ih (i + 1), show n - i = (n - (i + 1)) + 1 by omega,
        List.take_succ_cons]
    · rw [if_neg h, ih (i + 1), show n - (i + 1) = 0 by omega,
        show n - i = 0 by omega]
      simp

theorem filterIdxLt_eq_take (n : Nat) (l : List Translation) :
    filterIdxLt n l = l.take n := by
  simpa [filterIdxLt] using filterIdxLtAux_eq_take n l 0

theorem sameIdentity_iff (a b : Translation) :
    sameIdentity a b = true ↔ lid a = lid b := by
  simp only [sameIdentity, lid, Bool.and_eq_true, beq_iff_eq, Prod.mk.injEq]
  tauto

theorem sameIdentity_false_of_any_false {prev : List Translation} {r : Translation}
    (ha : (prev.any fun t => sameIdentity t r) = false) :
    ∀ x ∈ prev, sameIdentity x r = false := by
  intro x hmem
  cases hb : sameIdentity x r with
  | false => rfl
  | true =>
    have h1 : (prev.any fun t => sameIdentity t r) = true :=
      List.any_eq_true.mpr ⟨x, hmem, hb⟩
    rw [ha] at h1
    exact absurd h1 Bool.false_ne_true

theorem dedup_take_length_le (l : List Translation) :
    (dedupByKey [] (filterIdxLt 10 l)).length ≤ 10 := by
  have h1 := (dedupByKey_sublist [] (filterIdxLt 10 l)).length_le
  rw [filterIdxLt_eq_take, List.length_take] at h1
  rw [filterIdxLt_eq_take]
  exact h1.trans (Nat.min_le_left _ _)

theorem recordTranslation_length_le (prev : List Translation) (r : Translation) :
    (recordTranslation prev r).length ≤ 10 := by
  simp only [recordTranslation]
  exact dedup_take_length_le _

theorem dedup_take_head (r : Translation) (rest : List Translation) :
    (dedupByKey [] (filterIdxLt 10 (r :: rest))).head? = some r := by
  rw [filterIdxLt_eq_take, show (10 : Nat) = 9 + 1 from rfl, List.take_succ_cons]
  simp [dedupByKey]

theorem recordTranslation_head (prev : List Translation) (r : Translation) :
    (recordTranslation prev r).head? = some r := by
  simp only [recordTranslation]
  by_cases h : (prev.any fun t => sameIdentity t r) = true
  · rw [if_pos h, show (10 : Nat) = 9 + 1 from rfl, List.take_succ_cons]
    exact dedup_take_head r _
  · rw [if_neg h]
    exact dedup_take_head r _

theorem mem_recordTranslation {x : Translation} {prev : List Translation}
    {r : Translation} (hx : x ∈ recordTranslation prev r) :
    x = r ∨ (x ∈ prev ∧ sameIdentity x r = false) := by
  simp only [recordTranslation] at hx
  by_cases h : (prev.any fun t => sameIdentity t r) = true
  · rw [if_pos h] at hx
    have hx2 := (dedupByKey_sublist [] _).subset hx
    rw [filterIdxLt_eq_take] at hx2
    have hx3 := List.take_subset _ _ hx2
    have hx4 := List.take_subset _ _ hx3
    rcases List.mem_cons.mp hx4 with h1 | h1
    · exact Or.inl h1
    · rcases List.mem_filter.mp h1 with ⟨hmem, hpred⟩
      exact Or.inr ⟨hmem, by simpa using hpred⟩
  · rw [if_neg h] at hx
    have ha : (prev.any fun t => sameIdentity t r) = false := by simpa using h
    have hx2 := (dedupByKey_sublist [] _).subset hx
    rw [filterIdxLt_eq_take] at hx2
    have hx3 := List.take_subset _ _ hx2
    rcases List.mem_cons.mp hx3 with h1 | h1
    · exact Or.inl h1
    · have hmem := List.take_subset _ _ h1
      exact Or.inr ⟨hmem, sameIdentity_false_of_any_false ha x hmem⟩

theorem dedup_take_nodup_lid (l : List Translation)
    (h : (l.map lid).Nodup) :
    ((dedupByKey [] (filterIdxLt 10 l)).map lid).Nodup := by
  have hsub : List.Sublist (dedupByKey [] (filterIdxLt 10 l)) l := by
    refine (dedupByKey_sublist _ _).trans ?_
    rw [filterIdxLt_eq_take]
    exact List.take_sublist _ _
  exact List.Nodup.sublist (hsub.map lid) h

theorem recordTranslation_nodup_lid (prev : List Translation) (r : Translation)
    (h : (prev.map lid).Nodup) : ((recordTranslation prev r).map lid).Nodup := by
  simp only [recordTranslation]
  by_cases hdup : (prev.any fun t => sameIdentity t r) = true
  · rw [if_pos hdup]
    refine dedup_take_nodup_lid _ ?_
    refine List.Nodup.sublist ((List.take_sublist _ _).map lid) ?_
    rw [List.map_cons, List.nodup_cons]
    constructor
    · intro hmem
      rcases List.mem_map.mp hmem with ⟨x, hxmem, hxeq⟩
      rcases List.mem_filter.mp hxmem with ⟨_, hpred⟩
      have hfalse : sameIdentity x r = false := by simpa using hpred
      have htrue : sameIdentity x r = true := (sameIdentity_iff x r).mpr hxeq
      rw [hfalse] at htrue
      exact Bool.false_ne_true htrue
    · exact List.Nodup.sublist ((List.filter_sublist _).map lid) h
  · rw [if_neg hdup]
    have ha : (prev.any fun t => sameIdentity t r) = false := by simpa using hdup
    have hall := sameIdentity_false_of_any_false ha
    refine dedup_take_nodup_lid _ ?_
    rw [List.map_cons, List.nodup_cons]
    constructor
    · intro hmem
      rcases List.mem_map.mp hmem with ⟨x, hxmem, hxeq⟩
      have hxp : x ∈ prev := List.take_subset _ _ hxmem
      have htrue : sameIdentity x r = true := (sameIdentity_iff x r).mpr hxeq
      rw [hall x hxp] at htrue
      exact Bool.false_ne_true htrue
    · exact List.Nodup.sublist ((List.take_sublist _ _).map lid) h

theorem foldl_recordTranslation_length_le (recs : List Translation) :
    ∀ init : List Translation, init.length ≤ 10 →
      (recs.foldl recordTranslation init).length ≤ 10 := by
  induction recs with
  | nil => intro init h; simpa using h
  | cons r rest ih =>
    intro init h
    simp only [List.foldl_cons]
    exact ih _ (recordTranslation_length_le init r)

/-! ## Claim theorems -/

/-- C1 counterexample: on an input history already holding two records whose
identities differ only in letter case, the updater returns a list in which
two elements share the lower-cased identity tuple, because the final
defensive pass dedups by the raw, case-sensitive key. -/
theorem claim_C1_counterexample :
    ¬ (((recordTranslation [caseUpper, caseLower] caseOther).map lid).Nodup) := by
  decide

/-- C1 (amended): for every input history list in which no two elements share
the lower-cased identity tuple (in particular every state reachable from the
empty history) and every incoming record, the updater returns a list in which
no two elements share the lower-cased identity tuple. -/
theorem claim_C1_theorem (prev : List Translation) (r : Translation)
    (h : (prev.map lid).Nodup) : ((recordTranslation prev r).map lid).Nodup :=
  recordTranslation_nodup_lid prev r h

/-- C1 witness: the amended theorem applied to a concrete unique history. -/
theorem claim_C1_witness :
    (([recA 1].map lid).Nodup) ∧
      (((recordTranslation [recA 1] (recB 2)).map lid).Nodup) :=
  ⟨by decide, claim_C1_theorem [recA 1] (recB 2) (by decide)⟩

/-- C2: the history update returns a list of length at most 10 for every
input list and record, and along any sequence of insertions from the empty
history the length stays at most 10. -/
theorem claim_C2_theorem :
    (∀ (prev : List Translation) (r : Translation),
      (recordTranslation prev r).length ≤ 10) ∧
    (∀ recs : List Translation,
      (recs.foldl recordTranslation []).length ≤ 10) :=
  ⟨recordTranslation_length_le,
   fun recs => foldl_recordTranslation_length_le recs [] (by simp)⟩

/-- C3: inserting a record whose identity already occurs removes the old
occurrence and prepends the new record: the new record is always at the
head, every element of the result is the new record or a surviving old
record of a different identity, inserting the same pair twice into an empty
list leaves one record with the later timestamp, and inserting A, B, then A
again yields [A(new timestamp), B]. -/
theorem claim_C3_theorem (t1 t2 t3 t4 t5 : Nat) :
    recordTranslation (recordTranslation [] (recA t1)) (recA t2) = [recA t2] ∧
    recordTranslation (recordTranslation (recordTranslation [] (recA t3))
        (recB t4)) (recA t5) = [recA t5, recB t4] ∧
    (∀ (prev : List Translation) (r : Translation),
      (recordTranslation prev r).head? = some r) ∧
    (∀ (x r : Translation) (prev : List Translation),
      x ∈ recordTranslation prev r →
        x = r ∨ (x ∈ prev ∧ sameIdentity x r = false)) := by
  refine ⟨?_, ?_, recordTranslation_head,
    fun x r prev hx => mem_recordTranslation hx⟩
  · simp [recordTranslation, sameIdentity, dedupByKey, filterIdxLt,
      filterIdxLtAux, identityKey, recA, jsToLowerCase]
  · simp [recordTranslation, sameIdentity, dedupByKey, filterIdxLt,
      filterIdxLtAux, identityKey, recA, recB, jsToLowerCase]

/-- C3 witness: the dedup behaviour at concrete timestamps. -/
theorem claim_C3_witness :
    recordTranslation (recordTranslation [] (recA 1)) (recA 2) = [recA 2] :=
  (claim_C3_theorem 1 2 3 4 5).1

/-- C4 counterexample: inserting the eleven distinct records sequentially
yields a history of length 10, not 6 as the claim words it. -/
theorem claim_C4_counterexample :
    (elevenDistinct.foldl recordTranslation []).length = 10 ∧
    (elevenDistinct.foldl recordTranslation []).length ≠ 6 := by
  decide

/-- C4 (amended): inserting 11 distinct records sequentially from the empty
history yields a result of length 10 (capped at 10), with the oldest
(first-inserted) record evicted and order most-recent first,
[11th, ..., 2nd]. -/
theorem claim_C4_theorem :
    elevenDistinct.foldl recordTranslation [] =
      [demoRec "eleven" 11, demoRec "ten" 10, demoRec "nine" 9,
       demoRec "eight" 8, demoRec "seven" 7, demoRec "six" 6,
       demoRec "five" 5, demoRec "four" 4, demoRec "three" 3,
       demoRec "two" 2] ∧
    (elevenDistinct.foldl recordTranslation []).length = 10 ∧
    demoRec "one" 1 ∉ elevenDistinct.foldl recordTranslation [] := by
  decide

/-- C5: with non-empty input text and an empty API key, the adapter fails
with the configuration error, and `handleTranslate` issues no network call,
leaves the displayed output and the history unchanged, sets the
configuration error message and reopens the key-entry prompt. -/
theorem claim_C5_theorem (s : SessionState) (now : Nat) (resp : HttpResult)
    (hne : jsTrim s.sourceText ≠ "") (hkey : s.apiKey = "") :
    (∀ (text fromLang toLang : String) (r : HttpResult),
      translateWithGemini text fromLang toLang "" r =
        .error (.config "Gemini API key is required")) ∧
    (handleTranslate s now resp).2 = false ∧
    (handleTranslate s now resp).1.translatedText = s.translatedText ∧
    (handleTranslate s now resp).1.recentTranslations = s.recentTranslations ∧
    (handleTranslate s now resp).1.error =
      "Please enter your Gemini API key first" ∧
    (handleTranslate s now resp).1.showApiKeyInput = true := by
  refine ⟨fun text f t r => by simp [translateWithGemini], ?_, ?_, ?_, ?_, ?_⟩ <;>
    simp [handleTranslate, hne, hkey]

/-- C5 witness: the theorem applied to a concrete keyless session. -/
theorem claim_C5_witness :
    (handleTranslate keylessState 5 (.fail 500 none)).2 = false ∧
    (handleTranslate keylessState 5 (.fail 500 none)).1.translatedText = "old" := by
  have h := claim_C5_theorem keylessState 5 (.fail 500 none) (by decide) (by decide)
  refine ⟨h.2.1, ?_⟩
  rw [h.2.2.1]
  decide

/-- C6: with a non-empty key, an HTTP-ok body without at least one candidate
holding at least one content part makes the adapter fail with the protocol
error (in particular a body lacking `candidates`), and otherwise the adapter
returns the first candidate first part text, trimmed. -/
theorem claim_C6_theorem (text fromLang toLang apiKey : String)
    (hk : apiKey ≠ "") (body : GeminiResponse) :
    (firstPartText body = none →
      translateWithGemini text fromLang toLang apiKey (.ok body) =
        .error (.protocol "Invalid response from Gemini API")) ∧
    (∀ s, firstPartText body = some s →
      translateWithGemini text fromLang toLang apiKey (.ok body) =
        .ok (jsTrim s)) ∧
    firstPartText emptyBody = none := by
  refine ⟨fun h => ?_, fun s h => ?_, rfl⟩ <;> simp [translateWithGemini, hk, h]

/-- C6 witness: the theorem applied to a body lacking candidates and to a
well-formed body with surrounding whitespace. -/
theorem claim_C6_witness :
    translateWithGemini "hello" "en" "ja" "key" (.ok emptyBody) =
      .error (.protocol "Invalid response from Gemini API") ∧
    translateWithGemini "hello" "en" "ja" "key" (.ok goodBody) = .ok "Hallo" := by
  have he := claim_C6_theorem "hello" "en" "ja" "key" (by decide) emptyBody
  have hg := claim_C6_theorem "hello" "en" "ja" "key" (by decide) goodBody
  have h2 := hg.2.1 " Hallo " rfl
  have htrim : jsTrim " Hallo " = "Hallo" := by decide
  rw [htrim] at h2
  exact ⟨he.1 rfl, h2⟩

/-- C7: with `fromCode = "auto"` the prompt asks for translation into the
target language name only, naming no source language; otherwise it names
both the source and the target language names; and a code outside the
catalog resolves to itself. -/
theorem claim_C7_theorem (text toLang fromLang code : String)
    (hf : fromLang ≠ "auto")
    (hc : (languages.any fun l => l.code == code) = false) :
    geminiPrompt text "auto" toLang =
      "Translate the following text to " ++ languageName toLang ++
        ". Only return the translation, nothing else:\n\n" ++ text ∧
    geminiPrompt text fromLang toLang =
      "Translate the following text from " ++ languageName fromLang ++ " to " ++
        languageName toLang ++ ". Only return the translation, nothing else:\n\n" ++
        text ∧
    languageName code = code := by
  refine ⟨by simp [geminiPrompt], by simp [geminiPrompt, hf], ?_⟩
  have hall : ∀ l ∈ languages, ¬ (l.code == code) = true := by
    intro l hl hx
    have h1 : (languages.any fun l => l.code == code) = true :=
      List.any_eq_true.mpr ⟨l, hl, hx⟩
    rw [hc] at h1
    exact Bool.false_ne_true h1
  have hfind : languages.find? (fun l => l.code == code) = none :=
    List.find?_eq_none.mpr hall
  simp [languageName, hfind, jsOrElse]

/-- C7 witness: the auto prompt for Japanese at concrete inputs. -/
theorem claim_C7_witness :
    geminiPrompt "good morning" "auto" "ja" =
      "Translate the following text to " ++ languageName "ja" ++
        ". Only return the translation, nothing else:\n\n" ++ "good morning" ∧
    languageName "ja" = "Japanese" ∧ languageName "qq" = "qq" := by
  have h := claim_C7_theorem "good morning" "ja" "en" "qq" (by decide) (by decide)
  exact ⟨h.1, by decide, h.2.2⟩

/-- C8 counterexample: with `?sl=xx` (not a catalog code) the initial source
language is the raw value "xx", not the default "en" the claim requires. -/
theorem claim_C8_counterexample :
    (initialLanguages (some "xx") (some "ja")).1 = "xx" ∧
    (languages.any fun l => l.code == "xx") = false ∧
    "xx" ≠ "en" := by
  decide

/-- C8 (amended): a missing or empty `sl`/`tl` parameter yields the defaults
"en"/"ja", and any non-empty parameter value, catalog code or not, becomes
the initial language: the startup validation only re-adopts catalog codes
and never replaces an invalid value with the default, because the state
initializers already adopted the raw parameter. -/
theorem claim_C8_theorem (slParam tlParam : Option String) (sl tl : String)
    (hsl : sl ≠ "") (htl : tl ≠ "") :
    (initialLanguages none tlParam).1 = "en" ∧
    (initialLanguages (some "") tlParam).1 = "en" ∧
    (initialLanguages (some sl) tlParam).1 = sl ∧
    (initialLanguages slParam none).2 = "ja" ∧
    (initialLanguages slParam (some tl)).2 = tl := by
  refine ⟨?_, ?_, ?_, ?_, ?_⟩ <;>
    simp [initialLanguages, getUrlParams, jsOrElse, hsl, htl]

/-- C8 witness: the amended theorem at concrete parameters. -/
theorem claim_C8_witness :
    (initialLanguages none (some "de")).1 = "en" ∧
    (initialLanguages (some "fr") (some "de")).1 = "fr" := by
  have h := claim_C8_theorem (some "fr") (some "de") "fr" "de" (by decide) (by decide)
  exact ⟨h.1, h.2.2.1⟩

/-- C9 counterexample: the missing-key configuration error sets the error
message but leaves the previously displayed output in place, and a source
text change longer than 5000 characters leaves a visible error unchanged. -/
theorem claim_C9_counterexample :
    (handleTranslate cexConfigState 0 (.fail 500 none)).1.error =
      "Please enter your Gemini API key first" ∧
    (handleTranslate cexConfigState 0 (.fail 500 none)).1.translatedText =
      "old" ∧
    handleSourceTextChange cexErrState overlongText = cexErrState ∧
    cexErrState.error = "Boom" := by
  have hlen : overlongText.length = 5001 := by
    rw [show overlongText.length = (List.replicate 5001 'a').length from rfl,
      List.length_replicate]
  refine ⟨by decide, by decide, ?_, rfl⟩
  simp [handleSourceTextChange, hlen]

/-- C9 (amended): a transport or protocol error caught by the controller
sets the visible error string to the thrown message and clears the output;
the missing-key configuration guard sets the error and reopens the key
prompt but leaves the output unchanged (see the counterexample); a
subsequent accepted source text change (at most 5000 characters) adopts the
text and clears the error, while a longer change is rejected and leaves the
error in place. -/
theorem claim_C9_theorem (s : SessionState) (now : Nat) (resp : HttpResult)
    (e : TransError) (text : String)
    (hne : jsTrim s.sourceText ≠ "") (hk : s.apiKey ≠ "")
    (herr : translateWithGemini s.sourceText s.sourceLang s.targetLang
      s.apiKey resp = .error e)
    (hlen : text.length ≤ 5000) :
    (handleTranslate s now resp).1.error = e.message ∧
    (handleTranslate s now resp).1.translatedText = "" ∧
    (handleSourceTextChange s text).error = "" ∧
    (handleSourceTextChange s text).sourceText = text := by
  refine ⟨?_, ?_, ?_, ?_⟩
  · simp [handleTranslate, hne, hk, herr]
  · simp [handleTranslate, hne, hk, herr]
  · by_cases he : s.error = "" <;> simp [handleSourceTextChange, hlen, he]
  · simp [handleSourceTextChange, hlen]

/-- C9 witness: the amended theorem at a concrete failing transport call. -/
theorem claim_C9_witness :
    (handleTranslate errWitnessState 0 (.fail 404 (some "Not Found"))).1.error =
      TransError.message (.transport "Gemini API error: 404 - Not Found") ∧
    (handleTranslate errWitnessState 0
      (.fail 404 (some "Not Found"))).1.translatedText = "" ∧
    (handleSourceTextChange errWitnessState "new").error = "" := by
  have h := claim_C9_theorem errWitnessState 0 (.fail 404 (some "Not Found"))
    (.transport "Gemini API error: 404 - Not Found") "new"
    (by decide) (by decide) rfl (by decide)
  exact ⟨h.1, h.2.1, h.2.2.1⟩

/-- C10: every history record created on a successful translation stores the
trimmed source text while the displayed input stays untrimmed, stores "en"
as the from code when the selected source language is the `auto` sentinel,
and when no record of the previous history carries "auto" as its from code,
no record of the updated history does. -/
theorem claim_C10_theorem (s : SessionState) (now : Nat) (resp : HttpResult)
    (r : String)
    (hne : jsTrim s.sourceText ≠ "") (hk : s.apiKey ≠ "")
    (hok : translateWithGemini s.sourceText s.sourceLang s.targetLang
      s.apiKey resp = .ok r)
    (hprev : ∀ t ∈ s.recentTranslations, t.fromCode ≠ "auto") :
    (handleTranslate s now resp).1.recentTranslations.head? = some
      { source := jsTrim s.sourceText, target := r,
        fromCode := if s.sourceLang = "auto" then "en" else s.sourceLang,
        toCode := s.targetLang, timestamp := now } ∧
    (handleTranslate s now resp).1.sourceText = s.sourceText ∧
    (if s.sourceLang = "auto" then "en" else s.sourceLang) ≠ "auto" ∧
    (∀ t ∈ (handleTranslate s now resp).1.recentTranslations,
      t.fromCode ≠ "auto") := by
  have hbranch : (handleTranslate s now resp).1.recentTranslations =
      recordTranslation s.recentTranslations
        { source := jsTrim s.sourceText, target := r,
          fromCode := if s.sourceLang = "auto" then "en" else s.sourceLang,
          toCode := s.targetLang, timestamp := now } := by
    simp [handleTranslate, hne, hk, hok]
  have hfrom : (if s.sourceLang = "auto" then "en" else s.sourceLang) ≠
      "auto" := by
    by_cases hl : s.sourceLang = "auto" <;> simp [hl]
  refine ⟨?_, by simp [handleTranslate, hne, hk, hok], hfrom, ?_⟩
  · rw [hbranch]
    exact recordTranslation_head _ _
  · intro t ht
    rw [hbranch] at ht
    rcases mem_recordTranslation ht with h1 | ⟨h1, _⟩
    · rw [h1]
      exact hfrom
    · exact hprev t h1

/-- C10 witness: translating " hey " from `auto` stores the trimmed source
"hey" with from code "en". -/
theorem claim_C10_witness :
    (handleTranslate autoState 7 (.ok goodBody)).1.recentTranslations.head? =
      some { source := "hey", target := "Hallo", fromCode := "en",
             toCode := "ja", timestamp := 7 } := by
  have h := claim_C10_theorem autoState 7 (.ok goodBody) "Hallo"
    (by decide) (by decide) rfl
    (fun t ht => absurd ht (List.not_mem_nil t))
  rw [h.1]
  decide

end OfficeSuit
